import Mathlib

/-!
Verification development for the AXA Remote window-opener driver
(file src/axaremote/axaremote.py).

The Python class AXARemote is shallowly embedded: its mutable instance
attributes become the fields of the structure AXAState, each method
becomes a Lean function threading the state explicitly, Python floats
for positions and wall-clock times are modelled as rationals, and a
Python exception escaping a method is modelled by the Except error
component of the method's result (the returned state is the state at
the raise point; no attribute is mutated after the raise point in any
of the translated methods).  The transport (the axaconnection module,
an external collaborator that is out of scope) is modelled by oracles:
a boolean for each connection attempt and the list of decoded, not yet
stripped lines a read returns, with `none` standing for the caught
decode or serial failures that the source converts to an absent
response.  The busy flag only serialises concurrent callers; the
semantics here is sequential, where the flag is identically false on
entry and exit of every call, so it is not a field.  The class
attribute _raw_status is written by no method and read by none, so it
is likewise omitted.
-/

namespace AXARemote

/-! ### Python string primitives used by the source -/

/-- Python whitespace test (str.isspace) restricted to the ASCII range,
which is all the protocol ever transports. -/
def pySpace (c : Char) : Bool :=
  c = ' ' || c = '\t' || c = '\n' || c = '\r' || c = '\x0b' || c = '\x0c'

/-- Python str.strip: remove leading and trailing whitespace. -/
def pyStrip (s : String) : String :=
  String.mk (((s.data.dropWhile pySpace).reverse.dropWhile pySpace).reverse)

/-- Python str.upper on ASCII strings. -/
def pyUpper (s : String) : String :=
  String.mk (s.data.map Char.toUpper)

/-- Python str.split(maxsplit=1) with the default separator: skip
leading whitespace; if nothing is left the result is empty; otherwise
the first maximal non-whitespace run is the head, the whitespace run
after it is consumed, and a non-empty remainder (kept verbatim to the
end of the string) is the optional second element. -/
def pySplit1 (s : String) : List String :=
  let cs := s.data.dropWhile pySpace
  if cs.isEmpty then []
  else
    let tok := cs.takeWhile (fun c => !(pySpace c))
    let rest := (cs.dropWhile (fun c => !(pySpace c))).dropWhile pySpace
    if rest.isEmpty then [String.mk tok] else [String.mk tok, String.mk rest]

/-- Digit tail of Python int(str): digits with single underscores
allowed between digits. -/
def pyDigitsAux : Nat → List Char → Option Nat
  | acc, [] => some acc
  | _, ['_'] => none
  | acc, '_' :: c :: cs =>
      if c.isDigit then pyDigitsAux (acc * 10 + (c.toNat - 48)) cs else none
  | acc, c :: cs =>
      if c.isDigit then pyDigitsAux (acc * 10 + (c.toNat - 48)) cs else none

/-- Unsigned part of Python int(str): a non-empty digit sequence, with
single underscores allowed between digits. -/
def pyDigitsCore : List Char → Option Nat
  | [] => none
  | c :: cs => if c.isDigit then pyDigitsAux (c.toNat - 48) cs else none

/-- Python int(str) in base 10: surrounding whitespace is ignored, an
optional single sign precedes the digits; `none` models the ValueError
int raises on anything else. -/
def pyInt (s : String) : Option Int :=
  let cs := ((s.data.dropWhile pySpace).reverse.dropWhile pySpace).reverse
  match cs with
  | '+' :: rest => (pyDigitsCore rest).map (fun n => (n : Int))
  | '-' :: rest => (pyDigitsCore rest).map (fun n => -(n : Int))
  | rest => (pyDigitsCore rest).map (fun n => (n : Int))

/-! ### Status code constants (class attributes of AXARemote) -/

abbrev RAW_STATUS_OK : Int := 200
abbrev RAW_STATUS_UNLOCKED : Int := 210
abbrev RAW_STATUS_STRONG_LOCKED : Int := 211
abbrev RAW_STATUS_WEAK_LOCKED : Int := 212
abbrev RAW_STATUS_DEVICE : Int := 260
abbrev RAW_STATUS_VERSION : Int := 261
abbrev RAW_STATUS_COMMAND_NOT_IMPLEMENTED : Int := 502

abbrev STATUS_DISCONNECTED : Int := -1
abbrev STATUS_STOPPED : Int := 0
abbrev STATUS_LOCKED : Int := 1
abbrev STATUS_UNLOCKING : Int := 2
abbrev STATUS_OPENING : Int := 3
abbrev STATUS_OPEN : Int := 4
abbrev STATUS_CLOSING : Int := 5
abbrev STATUS_LOCKING : Int := 6

abbrev TIME_UNLOCK : ℚ := 5
abbrev TIME_OPEN : ℚ := 42
abbrev TIME_CLOSE : ℚ := TIME_OPEN
abbrev TIME_LOCK : ℚ := 16

/-- The Python exceptions the translated methods can let escape. -/
inductive PyErr where
  | typeError
  | valueError
  | assertionError
  | indexError
  | attributeError
deriving DecidableEq

/-- The mutable instance attributes of AXARemote.  The connection
handle is modelled by its presence. -/
structure AXAState where
  connection : Bool
  device : Option String
  version : Option String
  status : Int
  position : ℚ
  timestamp : Option ℚ
deriving DecidableEq

/-- A fresh AXARemote instance: class-attribute defaults. -/
def initState : AXAState :=
  { connection := false
    device := none
    version := none
    status := STATUS_DISCONNECTED
    position := 0
    timestamp := none }

/-- Transport oracle for one _send_command call: the outcome of the
_connect call it makes, and the decoded lines the transport returns
(`none` models the caught decode or serial failures, which the source
converts to an absent response). -/
structure CmdOracle where
  connectOk : Bool
  lines : Option (List String)

/-- Transport oracle for one connect() call: the outcome of its direct
_connect call, then one command oracle per command it sends (DEVICE,
VERSION, STATUS). -/
structure ConnOracle where
  c0 : Bool
  oD : CmdOracle
  oV : CmdOracle
  oS : CmdOracle

/-- os.linesep on the POSIX hosts this driver targets. -/
def linesep : String := "\n"

/-- The pure response-assembly part of AXARemote._send_command, given
the decoded lines the transport returned: strip every line; no line is
an empty response; the first line must echo the upper-cased command or
the response is discarded; the remaining lines are joined with the
line separator (a single remaining line is returned as is), and an
empty result collapses to an absent response. -/
def sendCommandPure (command : String) (lines : List String) : Option String :=
  let cmd := pyUpper command
  let resp := lines.map pyStrip
  match resp with
  | [] => none
  | first :: rest =>
    if first = cmd then
      let joined :=
        match rest with
        | [r0] => r0
        | rs => String.intercalate linesep rs
      if joined = "" then none else some joined
    else none

/-- AXARemote._send_command: a failed _connect yields an absent
response; otherwise the transport lines (absent on the caught decode
or serial failures) are assembled by sendCommandPure.  The only state
effect is the connection handle _connect may establish. -/
def sendCommand (s : AXAState) (o : CmdOracle) (command : String) :
    Option String × AXAState :=
  let s1 : AXAState := { s with connection := s.connection || o.connectOk }
  if o.connectOk = false then (none, s1)
  else
    match o.lines with
    | none => (none, s1)
    | some ls => (sendCommandPure command ls, s1)

/-- AXARemote._split_response: an absent response maps to (None, None);
a response splitting (maxsplit=1) into exactly two parts has its head
passed to int(), whose ValueError propagates; any other response is
returned whole as the message with no code. -/
def splitResponse (response : Option String) :
    Except PyErr (Option Int × Option String) :=
  match response with
  | none => .ok (none, none)
  | some s =>
    match pySplit1 s with
    | [a, b] =>
      match pyInt a with
      | some n => .ok (some n, some b)
      | none => .error .valueError
    | _ => .ok (none, some s)

/-- AXARemote._update: stable phases return at once; a moving phase
subtracts the timestamp from the clock (a TypeError when the timestamp
was never set) and walks the four sequential interpolation branches of
the source. -/
def update (s : AXAState) (now : ℚ) : Except PyErr Unit × AXAState :=
  if s.status = STATUS_DISCONNECTED ∨ s.status = STATUS_LOCKED ∨
      s.status = STATUS_STOPPED ∨ s.status = STATUS_OPEN then
    (.ok (), s)
  else
    match s.timestamp with
    | none => (.error .typeError, s)
    | some ts =>
      let timePassed := now - ts
      let s1 :=
        if s.status = STATUS_UNLOCKING then
          if timePassed < TIME_UNLOCK then
            { s with position := timePassed / TIME_UNLOCK * 100 }
          else { s with status := STATUS_OPENING }
        else s
      let s2 :=
        if s1.status = STATUS_OPENING then
          let sa := { s1 with position := (timePassed - TIME_UNLOCK) / TIME_OPEN * 100 }
          if timePassed > TIME_UNLOCK + TIME_OPEN then
            { sa with status := STATUS_OPEN, position := 100 }
          else sa
        else s1
      let s3 :=
        if s2.status = STATUS_CLOSING then
          if timePassed < TIME_CLOSE then
            { s2 with position := 100 - timePassed / TIME_CLOSE * 100 }
          else { s2 with status := STATUS_LOCKING }
        else s2
      let s4 :=
        if s3.status = STATUS_LOCKING then
          let sb := { s3 with position := 100 - (timePassed - TIME_CLOSE) / TIME_LOCK * 100 }
          if timePassed > TIME_CLOSE + TIME_LOCK then
            { sb with status := STATUS_LOCKED, position := 0 }
          else sb
        else s3
      (.ok (), s4)

/-- AXARemote.status: update, then report the presumed status. -/
def statusOp (s : AXAState) (now : ℚ) : Except PyErr Int × AXAState :=
  ((update s now).1.map (fun _ => (update s now).2.status), (update s now).2)

/-- AXARemote.position: update, then report the position. -/
def positionOp (s : AXAState) (now : ℚ) : Except PyErr ℚ × AXAState :=
  ((update s now).1.map (fun _ => (update s now).2.position), (update s now).2)

/-- AXARemote.set_position: the assert rejects an argument outside
[0, 100] (AssertionError) before any mutation; otherwise the position
is stored and the presumed status derived from it. -/
def setPosition (s : AXAState) (p : ℚ) : Except PyErr Unit × AXAState :=
  if 0 ≤ p ∧ p ≤ 100 then
    let s1 := { s with position := p }
    let s2 :=
      if s1.position = 0 then { s1 with status := STATUS_LOCKED }
      else if s1.position = 100 then { s1 with status := STATUS_OPEN }
      else { s1 with status := STATUS_STOPPED }
    (.ok (), s2)
  else (.error .assertionError, s)

/-- AXARemote.open. -/
def openOp (s : AXAState) (o : CmdOracle) (now : ℚ) :
    Except PyErr Bool × AXAState :=
  let r := sendCommand s o "OPEN"
  match splitResponse r.1 with
  | .error e => (.error e, r.2)
  | .ok resp =>
    if resp.1 = some RAW_STATUS_OK then
      if r.2.status = STATUS_LOCKED then
        (.ok true, { r.2 with timestamp := some now, status := STATUS_UNLOCKING })
      else if r.2.status = STATUS_STOPPED then
        (.ok true, { r.2 with status := STATUS_OPENING })
      else (.ok true, r.2)
    else (.ok false, r.2)

/-- AXARemote.close. -/
def closeOp (s : AXAState) (o : CmdOracle) (now : ℚ) :
    Except PyErr Bool × AXAState :=
  let r := sendCommand s o "CLOSE"
  match splitResponse r.1 with
  | .error e => (.error e, r.2)
  | .ok resp =>
    if resp.1 = some RAW_STATUS_OK then
      if r.2.status = STATUS_OPEN then
        (.ok true, { r.2 with timestamp := some now, status := STATUS_CLOSING })
      else if r.2.status = STATUS_STOPPED then
        (.ok true, { r.2 with status := STATUS_CLOSING })
      else (.ok true, r.2)
    else (.ok false, r.2)

/-- AXARemote.stop. -/
def stopOp (s : AXAState) (o : CmdOracle) : Except PyErr Bool × AXAState :=
  let r := sendCommand s o "STOP"
  match splitResponse r.1 with
  | .error e => (.error e, r.2)
  | .ok resp =>
    if resp.1 = some RAW_STATUS_OK then (.ok true, r.2) else (.ok false, r.2)

/-- AXARemote.raw_status. -/
def rawStatusOp (s : AXAState) (o : CmdOracle) :
    Except PyErr (Option Int × Option String) × AXAState :=
  let r := sendCommand s o "STATUS"
  match splitResponse r.1 with
  | .error e => (.error e, r.2)
  | .ok resp => (.ok resp, r.2)

/-- Final phase of AXARemote.connect (source lines 114-126): query
STATUS and seed the presumed status and position: strong or weak
locked means Locked at 0, anything else Open at 100. -/
def connectFinish (x : AXAState) (oS : CmdOracle) : Except PyErr Bool × AXAState :=
  let rS := sendCommand x oS "STATUS"
  match splitResponse rS.1 with
  | .error e => (.error e, rS.2)
  | .ok sr =>
    if sr.1 = some RAW_STATUS_STRONG_LOCKED then
      (.ok true, { rS.2 with status := STATUS_LOCKED, position := 0 })
    else if sr.1 = some RAW_STATUS_WEAK_LOCKED then
      (.ok true, { rS.2 with status := STATUS_LOCKED, position := 0 })
    else
      (.ok true, { rS.2 with status := STATUS_OPEN, position := 100 })

/-- Middle phase of AXARemote.connect (source lines 109-112): query
VERSION; when the code is 261 the version is the second whitespace
token of the message (a short message raises IndexError, an absent one
AttributeError); then the final phase runs. -/
def connectVersion (x : AXAState) (oV oS : CmdOracle) :
    Except PyErr Bool × AXAState :=
  let rV := sendCommand x oV "VERSION"
  match splitResponse rV.1 with
  | .error e => (.error e, rV.2)
  | .ok vr =>
    match (if vr.1 = some RAW_STATUS_VERSION then
        match vr.2 with
        | none => .error .attributeError
        | some m =>
          match pySplit1 m with
          | _ :: v :: _ => .ok { rV.2 with version := some v }
          | _ => .error .indexError
      else (.ok rV.2 : Except PyErr AXAState)) with
    | .error e => (.error e, rV.2)
    | .ok s3 => connectFinish s3 oS

/-- AXARemote.connect: a direct _connect, then the DEVICE query (an
absent response fails the call; code 260 captures the device name),
then the VERSION and STATUS phases. -/
def connectOp (s : AXAState) (oc : ConnOracle) :
    Except PyErr Bool × AXAState :=
  let s1 : AXAState := { s with connection := s.connection || oc.c0 }
  if oc.c0 = false then (.ok false, s1)
  else
    let rD := sendCommand s1 oc.oD "DEVICE"
    match rD.1 with
    | none => (.ok false, rD.2)
    | some dresp =>
      match splitResponse (some dresp) with
      | .error e => (.error e, rD.2)
      | .ok dr =>
        connectVersion
          (if dr.1 = some RAW_STATUS_DEVICE then { rD.2 with device := dr.2 }
            else rD.2) oc.oV oc.oS

/-- AXARemote.disconnect: close and clear the handle, report success. -/
def disconnect (s : AXAState) : Bool × AXAState :=
  (true, { s with connection := false })

/-- Body of AXARemote.sync_status after the reconnect guard. -/
def syncBody (s : AXAState) (o : CmdOracle) : Except PyErr Unit × AXAState :=
  let r := rawStatusOp s o
  match r.1 with
  | .error e => (.error e, r.2)
  | .ok rs =>
    if rs.1 = none then (.ok (), { r.2 with status := STATUS_DISCONNECTED })
    else if rs.1 = some RAW_STATUS_STRONG_LOCKED ∧ ¬ r.2.status = STATUS_LOCKED then
      (.ok (), { r.2 with status := STATUS_LOCKED, position := 0 })
    else if rs.1 = some RAW_STATUS_UNLOCKED ∧ r.2.status = STATUS_LOCKED then
      (.ok (), { r.2 with status := STATUS_OPEN, position := 100 })
    else (.ok (), r.2)

/-- AXARemote.sync_status: when presumed Disconnected, reconnect first
and return unchanged if that fails; then reconcile the presumed status
with the raw status. -/
def syncStatus (s : AXAState) (oc : ConnOracle) (o : CmdOracle) :
    Except PyErr Unit × AXAState :=
  if s.status = STATUS_DISCONNECTED then
    match connectOp s oc with
    | (.error e, s1) => (.error e, s1)
    | (.ok false, s1) => (.ok (), s1)
    | (.ok true, s1) => syncBody s1 o
  else syncBody s o

/-- Decidable equality of method results, so that concrete runs of the
embedding can be checked by `decide`. -/
instance instDecEqExcept {ε α : Type} [DecidableEq ε] [DecidableEq α] :
    DecidableEq (Except ε α) := fun x y =>
  match x, y with
  | .ok a, .ok b =>
    if h : a = b then isTrue (by rw [h])
    else isFalse (fun hh => by cases hh; exact h rfl)
  | .error a, .error b =>
    if h : a = b then isTrue (by rw [h])
    else isFalse (fun hh => by cases hh; exact h rfl)
  | .ok _, .error _ => isFalse (fun hh => by cases hh)
  | .error _, .ok _ => isFalse (fun hh => by cases hh)

/-! ### The public operations as a transition system -/

/-- One invocation of a public operation, together with the transport
oracles it consumes.  The clock value of the invocation is supplied
separately by the step relation. -/
inductive Op where
  | connectCmd (oc : ConnOracle)
  | disconnectCmd
  | openCmd (o : CmdOracle)
  | closeCmd (o : CmdOracle)
  | stopCmd (o : CmdOracle)
  | syncCmd (oc : ConnOracle) (o : CmdOracle)
  | statusCmd
  | positionCmd
  | setPositionCmd (p : ℚ)
  | rawStatusCmd (o : CmdOracle)

/-- The state after invoking one public operation at clock value `now`.
When the operation raises, this is the state at the raise point, which
is the state the next call starts from. -/
def applyOp (s : AXAState) (now : ℚ) : Op → AXAState
  | .connectCmd oc => (connectOp s oc).2
  | .disconnectCmd => (disconnect s).2
  | .openCmd o => (openOp s o now).2
  | .closeCmd o => (closeOp s o now).2
  | .stopCmd o => (stopOp s o).2
  | .syncCmd oc o => (syncStatus s oc o).2
  | .statusCmd => (statusOp s now).2
  | .positionCmd => (positionOp s now).2
  | .setPositionCmd p => (setPosition s p).2
  | .rawStatusCmd o => (rawStatusOp s o).2

/-- States reachable from a fresh instance by public operations invoked
at non-decreasing clock values, each step also satisfying the side
condition `P`. -/
inductive Reach (P : AXAState → ℚ → Op → Prop) : AXAState → ℚ → Prop where
  | init (t : ℚ) : Reach P initState t
  | step (s : AXAState) (t t2 : ℚ) (op : Op) (h : Reach P s t) (hle : t ≤ t2)
      (hp : P s t2 op) : Reach P (applyOp s t2 op) t2

/-- Side condition of claim C5: set_position is only invoked with an
argument in [0, 100]. -/
def InRangeSeeds : AXAState → ℚ → Op → Prop := fun _ _ op =>
  match op with
  | .setPositionCmd p => 0 ≤ p ∧ p ≤ 100
  | _ => True

/-- No side condition: every operation with every oracle. -/
def AnyOp : AXAState → ℚ → Op → Prop := fun _ _ _ => True

/-- Side condition of the amended claim C5: set_position arguments stay
in [0, 100], and open()/close() never succeed while the presumed status
is Stopped (the source starts such a motion without anchoring the
transition timestamp). -/
def NoMotionFromStopped : AXAState → ℚ → Op → Prop := fun s t op =>
  match op with
  | .setPositionCmd p => 0 ≤ p ∧ p ≤ 100
  | .openCmd o => ¬(s.status = STATUS_STOPPED ∧ (openOp s o t).1 = .ok true)
  | .closeCmd o => ¬(s.status = STATUS_STOPPED ∧ (closeOp s o t).1 = .ok true)
  | _ => True

/-- The state after a sequence of status()/position() reads at the
given clock values (both methods mutate the state through _update in
the same way). -/
def reads (s : AXAState) (l : List ℚ) : AXAState :=
  l.foldl (fun a t => (update a t).2) s

/-- Invariant behind the amended claim C5: the position is in range and
every moving phase carries a timestamp no later than the clock, far
enough in the past for the phase (an Opening phase began at least
UNLOCK seconds after its timestamp, a Locking phase at least CLOSE
seconds after). -/
def Inv (s : AXAState) (t : ℚ) : Prop :=
  0 ≤ s.position ∧ s.position ≤ 100 ∧
  (s.status = STATUS_UNLOCKING → ∃ u, s.timestamp = some u ∧ u ≤ t) ∧
  (s.status = STATUS_OPENING → ∃ u, s.timestamp = some u ∧ u + 5 ≤ t) ∧
  (s.status = STATUS_CLOSING → ∃ u, s.timestamp = some u ∧ u ≤ t) ∧
  (s.status = STATUS_LOCKING → ∃ u, s.timestamp = some u ∧ u + 42 ≤ t)

/-- Invariant behind the amended claim C6: Unlocking and Locking are
the only moving phases that always carry a transition timestamp. -/
def TsInv (s : AXAState) : Prop :=
  (s.status = STATUS_UNLOCKING ∨ s.status = STATUS_LOCKING) → s.timestamp ≠ none

/-- Invariant for claim C1: after an open() succeeded from Locked at
clock value t0, a state whose last read happened at elapsed time `e`
reports Unlocking before 5 seconds, Opening from 5 to 47 seconds, and
Open at position 100 after 47 seconds. -/
def GoodC1 (t0 : ℚ) (s : AXAState) (e : ℚ) : Prop :=
  s.timestamp = some t0 ∧
  (e < 5 → s.status = STATUS_UNLOCKING) ∧
  (5 ≤ e → e ≤ 47 → s.status = STATUS_OPENING) ∧
  (47 < e → s.status = STATUS_OPEN ∧ s.position = 100)

/-- Modelled from the words of claim C3 (the source sentence of the
spec): remove the echo line and join the remaining stripped lines with
the line separator; an empty result collapses to no response. -/
def sendSpecC3 (command : String) (lines : List String) : Option String :=
  match lines.map pyStrip with
  | [] => none
  | first :: rest =>
    if first = pyUpper command then
      let joined := String.intercalate linesep rest
      if joined = "" then none else some joined
    else none

/-- Transport oracle of a connect() call that finds a strong-locked
device: used by the concrete counterexample traces. -/
def lockedConn : ConnOracle :=
  ⟨true, ⟨true, some ["DEVICE", "260 AXA Remote"]⟩,
    ⟨true, some ["VERSION", "261 Firmware V1.0"]⟩,
    ⟨true, some ["STATUS", "211 Strong Locked"]⟩⟩

/-- Transport oracle of a command call the device acknowledges. -/
def okResp : CmdOracle := ⟨true, some ["OPEN", "200 OK"]⟩

/-- Trace state for claim C8: connect() found the device strong
locked, then open() succeeded at clock 0, so the presumed status is
Unlocking with timestamp 0. -/
def c8state : AXAState := (openOp (connectOp initState lockedConn).2 okResp 0).2

/-- Trace state for claim C5, reached with set_position arguments in
range only: connect() (Locked), open() succeeding at clock 10
(Unlocking, timestamp 10), set_position(50) (Stopped, timestamp still
10), open() succeeding at clock 12 (Opening, stale timestamp 10). -/
def c5state : AXAState :=
  applyOp (applyOp (applyOp (applyOp initState 0 (.connectCmd lockedConn))
    10 (.openCmd okResp)) 10 (.setPositionCmd 50)) 12 (.openCmd okResp)

/-- Final state of the C5 trace: a status() read at clock 12
interpolates the Opening phase against the stale timestamp. -/
def c5final : AXAState := applyOp c5state 12 .statusCmd

/-- Trace state for claim C6: connect() found the device strong
locked, open() succeeded at clock 1 (Unlocking, timestamp 1). -/
def c6state : AXAState := (openOp (connectOp initState lockedConn).2 okResp 1).2

/-- Final state of the C6 trace: a status() read at clock 50 runs the
phase out to Open, leaving the timestamp set. -/
def c6final : AXAState := applyOp c6state 50 .statusCmd

/-! ### Basic state-effect lemmas -/

theorem sendCommand_snd (s : AXAState) (o : CmdOracle) (c : String) :
    (sendCommand s o c).2 = { s with connection := s.connection || o.connectOk } := by
  unfold sendCommand
  dsimp only
  split
  · rfl
  · split <;> rfl

theorem sendCommand_status (s : AXAState) (o : CmdOracle) (c : String) :
    (sendCommand s o c).2.status = s.status := by rw [sendCommand_snd]

theorem sendCommand_position (s : AXAState) (o : CmdOracle) (c : String) :
    (sendCommand s o c).2.position = s.position := by rw [sendCommand_snd]

theorem sendCommand_timestamp (s : AXAState) (o : CmdOracle) (c : String) :
    (sendCommand s o c).2.timestamp = s.timestamp := by rw [sendCommand_snd]

/-! ### Characterisations of _update -/

theorem update_stable (s : AXAState) (now : ℚ)
    (h : s.status = STATUS_DISCONNECTED ∨ s.status = STATUS_LOCKED ∨
      s.status = STATUS_STOPPED ∨ s.status = STATUS_OPEN) :
    update s now = (.ok (), s) := by
  unfold update; rw [if_pos h]

theorem update_no_timestamp (s : AXAState) (now : ℚ)
    (h : ¬(s.status = STATUS_DISCONNECTED ∨ s.status = STATUS_LOCKED ∨
      s.status = STATUS_STOPPED ∨ s.status = STATUS_OPEN))
    (ht : s.timestamp = none) :
    update s now = (.error .typeError, s) := by
  unfold update; rw [if_neg h, ht]

theorem update_unlocking (s : AXAState) (now ts : ℚ)
    (hs : s.status = STATUS_UNLOCKING) (ht : s.timestamp = some ts) :
    update s now =
      (.ok (),
        if now - ts < 5 then { s with position := (now - ts) / 5 * 100 }
        else if now - ts > 47 then { s with status := STATUS_OPEN, position := 100 }
        else { s with status := STATUS_OPENING, position := (now - ts - 5) / 42 * 100 }) := by
  obtain ⟨c, d, v, st, pos, tsf⟩ := s
  simp only at hs ht
  subst hs
  subst ht
  simp only [update]
  norm_num
  all_goals (split_ifs <;> (try (dsimp only at *)) <;> (first | rfl | omega | (exfalso; linarith)))

theorem update_opening (s : AXAState) (now ts : ℚ)
    (hs : s.status = STATUS_OPENING) (ht : s.timestamp = some ts) :
    update s now =
      (.ok (),
        if now - ts > 47 then { s with status := STATUS_OPEN, position := 100 }
        else { s with position := (now - ts - 5) / 42 * 100 }) := by
  obtain ⟨c, d, v, st, pos, tsf⟩ := s
  simp only at hs ht
  subst hs
  subst ht
  simp only [update]
  norm_num
  all_goals (split_ifs <;> (try (dsimp only at *)) <;> (first | rfl | omega | (exfalso; linarith)))

theorem update_closing (s : AXAState) (now ts : ℚ)
    (hs : s.status = STATUS_CLOSING) (ht : s.timestamp = some ts) :
    update s now =
      (.ok (),
        if now - ts < 42 then { s with position := 100 - (now - ts) / 42 * 100 }
        else if now - ts > 58 then { s with status := STATUS_LOCKED, position := 0 }
        else { s with status := STATUS_LOCKING, position := 100 - (now - ts - 42) / 16 * 100 }) := by
  obtain ⟨c, d, v, st, pos, tsf⟩ := s
  simp only at hs ht
  subst hs
  subst ht
  simp only [update]
  norm_num
  all_goals (split_ifs <;> (try (dsimp only at *)) <;> (first | rfl | omega | (exfalso; linarith)))

theorem update_locking (s : AXAState) (now ts : ℚ)
    (hs : s.status = STATUS_LOCKING) (ht : s.timestamp = some ts) :
    update s now =
      (.ok (),
        if now - ts > 58 then { s with status := STATUS_LOCKED, position := 0 }
        else { s with position := 100 - (now - ts - 42) / 16 * 100 }) := by
  obtain ⟨c, d, v, st, pos, tsf⟩ := s
  simp only at hs ht
  subst hs
  subst ht
  simp only [update]
  norm_num
  all_goals (split_ifs <;> (try (dsimp only at *)) <;> (first | rfl | omega | (exfalso; linarith)))

theorem update_moving_other (s : AXAState) (now ts : ℚ)
    (hn : ¬(s.status = STATUS_DISCONNECTED ∨ s.status = STATUS_LOCKED ∨
      s.status = STATUS_STOPPED ∨ s.status = STATUS_OPEN))
    (h2 : s.status ≠ STATUS_UNLOCKING) (h3 : s.status ≠ STATUS_OPENING)
    (h5 : s.status ≠ STATUS_CLOSING) (h6 : s.status ≠ STATUS_LOCKING)
    (ht : s.timestamp = some ts) :
    update s now = (.ok (), s) := by
  unfold update
  rw [if_neg hn, ht]
  simp only [if_neg h2, if_neg h3, if_neg h5, if_neg h6]

/-! ### Helper: set_position characterisation -/

theorem setPosition_eq (s : AXAState) (p : ℚ) (h : 0 ≤ p ∧ p ≤ 100) :
    setPosition s p =
      (.ok (), { s with
        position := p
        status := if p = 0 then STATUS_LOCKED
          else if p = 100 then STATUS_OPEN else STATUS_STOPPED }) := by
  unfold setPosition
  rw [if_pos h]
  dsimp only
  split_ifs <;> rfl

/-! ### Claim theorems -/

/-- C2, counterexample: the claim says a response whose first token
parses as an integer maps to that integer paired with the (possibly
empty) rest, but the source only converts the head when the split
yields exactly two parts, so the bare token response (quote) 200
(unquote) maps to (None, (quote) 200 (unquote)) instead of (200, an
empty rest). -/
theorem axa_c2_split_counterexample :
    splitResponse (some "200") = .ok (none, some "200") ∧
    splitResponse (some "200") ≠ .ok (some 200, some "") := by decide

/-- C2, amended: the parser maps an absent response to (None, None); a
response splitting (maxsplit=1) into exactly two parts whose head
parses as an integer maps to (that integer, the rest); such a response
with a non-integer head raises ValueError; a response with fewer than
two parts (a bare token or an empty or all-whitespace string) maps to
(None, the original string).  The examples of the claim hold. -/
theorem axa_c2_split_amended :
    splitResponse none = .ok (none, none) ∧
    (∀ (s a b : String), pySplit1 s = [a, b] →
      (∀ n : Int, pyInt a = some n →
        splitResponse (some s) = .ok (some n, some b)) ∧
      (pyInt a = none → splitResponse (some s) = .error .valueError)) ∧
    (∀ s : String, (∀ a b, pySplit1 s ≠ [a, b]) →
      splitResponse (some s) = .ok (none, some s)) ∧
    splitResponse (some "200 OK") = .ok (some 200, some "OK") ∧
    splitResponse (some "260 AXA Remote 1.0") =
      .ok (some 260, some "AXA Remote 1.0") := by
  refine ⟨rfl, ?_, ?_, by decide, by decide⟩
  · intro s a b hsplit
    constructor
    · intro n hn
      simp only [splitResponse]
      rw [hsplit]
      dsimp only
      rw [hn]
    · intro hn
      simp only [splitResponse]
      rw [hsplit]
      dsimp only
      rw [hn]
  · intro s hne
    simp only [splitResponse]

/-- C2, amended, witness at a concrete two-part response. -/
theorem axa_c2_split_amended_witness :
    pySplit1 "502 Command not implemented" = ["502", "Command not implemented"] ∧
    pyInt "502" = some 502 ∧
    splitResponse (some "502 Command not implemented") =
      .ok (some 502, some "Command not implemented") := by
  refine ⟨by decide, by decide, ?_⟩
  exact (axa_c2_split_amended.2.1 "502 Command not implemented" "502"
    "Command not implemented" (by decide)).1 502 (by decide)

/-- C3: for every sequence of transport lines, _send_command returns no
response on zero lines, no response when the first line differs from
the upper-cased command, and otherwise the remaining stripped lines
joined with the line separator, an empty result collapsing to no
response; in particular lines OPEN and 200 OK for command (quote) open
(unquote) yield 200 OK. -/
theorem axa_c3_send_command_channel :
    (∀ (s : AXAState) (c : String) (ls : List String),
      (sendCommand s ⟨true, some ls⟩ c).1 = sendSpecC3 c ls) ∧
    (∀ (c : String) (ls : List String),
      sendCommandPure c ls = sendSpecC3 c ls) ∧
    (sendCommand initState ⟨true, some ["OPEN", "200 OK"]⟩ "open").1 =
      some "200 OK" := by
  have hpure : ∀ (c : String) (ls : List String),
      sendCommandPure c ls = sendSpecC3 c ls := by
    intro cmd lines
    unfold sendCommandPure sendSpecC3
    cases h : lines.map pyStrip with
    | nil => rfl
    | cons first rest =>
      dsimp only
      by_cases he : first = pyUpper cmd
      · rw [if_pos he, if_pos he]
        cases rest with
        | nil => rfl
        | cons r0 rt =>
          cases rt with
          | nil => rfl
          | cons r1 rt2 => rfl
      · rw [if_neg he, if_neg he]
  refine ⟨?_, hpure, by decide⟩
  intro s c ls
  rw [show (sendCommand s ⟨true, some ls⟩ c).1 = sendCommandPure c ls from rfl]
  exact hpure c ls

/-- C7, code-bug evidence: open() lets the ValueError of int() escape
to the caller when the device answers the echo with a two-token line
whose first token is not numeric, contradicting the claim that public
operations never signal failure by raising. -/
theorem axa_c7_open_raises_valueerror :
    (openOp initState ⟨true, some ["OPEN", "ERR bad"]⟩ 0).1 =
      .error .valueError := by decide

/-- C8, counterexample: from Locked, after open() succeeds at clock 0
the presumed status is Unlocking; disconnect() then returns true and
clears the handle, but the presumed status stays Unlocking rather than
becoming Disconnected, and a position() read at clock 1 still
interpolates (reporting 20 instead of a frozen 0). -/
theorem axa_c8_disconnect_counterexample :
    (disconnect c8state).1 = true ∧
    c8state.position = 0 ∧
    (disconnect c8state).2.status = STATUS_UNLOCKING ∧
    ¬(disconnect c8state).2.status = STATUS_DISCONNECTED ∧
    (positionOp (disconnect c8state).2 1).1 = .ok 20 := by
  have hst : (disconnect c8state).2.status = STATUS_UNLOCKING := by decide
  have hts : (disconnect c8state).2.timestamp = some 0 := by decide
  have hupd := update_unlocking ((disconnect c8state).2) 1 0 hst hts
  refine ⟨rfl, by decide, hst, by decide, ?_⟩
  unfold positionOp
  rw [hupd]
  rw [if_pos (by norm_num : (1:ℚ) - 0 < 5)]
  dsimp only [Except.map]
  norm_num

/-- C8, amended: disconnect() always returns true, idempotently clears
the connection handle, and leaves the presumed status, position and
timestamp untouched, so the presumed status is not forced to
Disconnected and later reads keep interpolating as before. -/
theorem axa_c8_disconnect_amended :
    ∀ s : AXAState,
      (disconnect s).1 = true ∧
      (disconnect s).2.connection = false ∧
      (disconnect s).2.status = s.status ∧
      (disconnect s).2.position = s.position ∧
      (disconnect s).2.timestamp = s.timestamp ∧
      disconnect (disconnect s).2 = disconnect s := by
  intro s
  exact ⟨rfl, rfl, rfl, rfl, rfl, rfl⟩

/-- C9: for p in [0, 100], set_position(p) succeeds without touching
the connection, a position() read returns exactly p, a status() read
returns Locked for 0, Open for 100 and Stopped otherwise, and an
out-of-range argument is rejected by the assert before any mutation. -/
theorem axa_c9_set_position_spec :
    ∀ (s : AXAState) (p now : ℚ), 0 ≤ p → p ≤ 100 →
      (setPosition s p).1 = .ok () ∧
      (setPosition s p).2.connection = s.connection ∧
      (positionOp (setPosition s p).2 now).1 = .ok p ∧
      (statusOp (setPosition s p).2 now).1 =
        .ok (if p = 0 then STATUS_LOCKED else if p = 100 then STATUS_OPEN
          else STATUS_STOPPED) ∧
      (∀ q : ℚ, ¬(0 ≤ q ∧ q ≤ 100) →
        setPosition s q = (.error .assertionError, s)) := by
  intro s p now h0 h1
  have hsp := setPosition_eq s p ⟨h0, h1⟩
  have hst : (setPosition s p).2.status =
      (if p = 0 then STATUS_LOCKED else if p = 100 then STATUS_OPEN
        else STATUS_STOPPED) := by rw [hsp]
  have hpos : (setPosition s p).2.position = p := by rw [hsp]
  have hstable : (setPosition s p).2.status = STATUS_DISCONNECTED ∨
      (setPosition s p).2.status = STATUS_LOCKED ∨
      (setPosition s p).2.status = STATUS_STOPPED ∨
      (setPosition s p).2.status = STATUS_OPEN := by
    rw [hst]
    split_ifs
    · exact Or.inr (Or.inl rfl)
    · exact Or.inr (Or.inr (Or.inr rfl))
    · exact Or.inr (Or.inr (Or.inl rfl))
  have hupd := update_stable ((setPosition s p).2) now hstable
  refine ⟨by rw [hsp], by rw [hsp], ?_, ?_, ?_⟩
  · unfold positionOp
    rw [hupd]
    dsimp only [Except.map]
    rw [hpos]
  · unfold statusOp
    rw [hupd]
    dsimp only [Except.map]
    rw [hst]
  · intro q hq
    unfold setPosition
    rw [if_neg hq]

/-- C9, witness at p = 50 from a fresh instance. -/
theorem axa_c9_set_position_spec_witness :
    (0:ℚ) ≤ 50 ∧ (50:ℚ) ≤ 100 ∧
    (setPosition initState 50).1 = .ok () ∧
    (positionOp (setPosition initState 50).2 7).1 = .ok 50 ∧
    (statusOp (setPosition initState 50).2 7).1 = .ok STATUS_STOPPED ∧
    setPosition initState 101 = (.error .assertionError, initState) := by
  have h := axa_c9_set_position_spec initState 50 7 (by norm_num) (by norm_num)
  refine ⟨by norm_num, by norm_num, h.1, h.2.2.1, ?_, ?_⟩
  · have h4 := h.2.2.2.1
    norm_num at h4
    exact h4
  · exact h.2.2.2.2 101 (by norm_num)

/-- C10: seeding with set_position(p) for 0 < p < 100 leaves the
presumed status Stopped with no transition timestamp; a then
succeeding open() (raw code 200) moves the presumed status to Opening
without setting the timestamp, and the next status() or position()
read raises TypeError when subtracting the unset timestamp from the
clock. -/
theorem axa_c10_stopped_open_typeerror :
    ∀ (p t t2 : ℚ) (o : CmdOracle) (m : Option String),
      0 < p → p < 100 →
      splitResponse (sendCommand (setPosition initState p).2 o "OPEN").1 =
        .ok (some 200, m) →
      (setPosition initState p).2.status = STATUS_STOPPED ∧
      (setPosition initState p).2.timestamp = none ∧
      (openOp (setPosition initState p).2 o t).1 = .ok true ∧
      (openOp (setPosition initState p).2 o t).2.status = STATUS_OPENING ∧
      (openOp (setPosition initState p).2 o t).2.timestamp = none ∧
      (statusOp (openOp (setPosition initState p).2 o t).2 t2).1 =
        .error .typeError ∧
      (positionOp (openOp (setPosition initState p).2 o t).2 t2).1 =
        .error .typeError := by
  intro p t t2 o m hp0 hp1 hresp
  have hsp := setPosition_eq initState p ⟨le_of_lt hp0, le_of_lt hp1⟩
  have hst : (setPosition initState p).2.status = STATUS_STOPPED := by
    rw [hsp]
    dsimp only
    rw [if_neg (ne_of_gt hp0), if_neg (ne_of_lt hp1)]
  have hts : (setPosition initState p).2.timestamp = none := by
    rw [hsp]
    rfl
  have hopen : openOp (setPosition initState p).2 o t =
      (.ok true, { (sendCommand (setPosition initState p).2 o "OPEN").2 with
        status := STATUS_OPENING }) := by
    unfold openOp
    dsimp only
    rw [hresp]
    dsimp only
    rw [if_pos rfl, sendCommand_status, hst]
    rw [if_neg (by decide), if_pos rfl]
  have hst2 : (openOp (setPosition initState p).2 o t).2.status =
      STATUS_OPENING := by rw [hopen]
  have hts2 : (openOp (setPosition initState p).2 o t).2.timestamp = none := by
    rw [hopen]
    dsimp only
    rw [sendCommand_timestamp, hts]
  have hnstable : ¬((openOp (setPosition initState p).2 o t).2.status =
      STATUS_DISCONNECTED ∨
      (openOp (setPosition initState p).2 o t).2.status = STATUS_LOCKED ∨
      (openOp (setPosition initState p).2 o t).2.status = STATUS_STOPPED ∨
      (openOp (setPosition initState p).2 o t).2.status = STATUS_OPEN) := by
    rw [hst2]
    decide
  have hupd := update_no_timestamp ((openOp (setPosition initState p).2 o t).2)
    t2 hnstable hts2
  refine ⟨hst, hts, by rw [hopen], hst2, hts2, ?_, ?_⟩
  · unfold statusOp
    rw [hupd]
    rfl
  · unfold positionOp
    rw [hupd]
    rfl

/-- C10, witness at p = 50. -/
theorem axa_c10_stopped_open_typeerror_witness :
    (0:ℚ) < 50 ∧ (50:ℚ) < 100 ∧
    splitResponse (sendCommand (setPosition initState 50).2
      ⟨true, some ["OPEN", "200 OK"]⟩ "OPEN").1 = .ok (some 200, some "OK") ∧
    (statusOp (openOp (setPosition initState 50).2
      ⟨true, some ["OPEN", "200 OK"]⟩ 3).2 7).1 = .error .typeError ∧
    (positionOp (openOp (setPosition initState 50).2
      ⟨true, some ["OPEN", "200 OK"]⟩ 3).2 7).1 = .error .typeError := by
  have h := axa_c10_stopped_open_typeerror 50 3 7
    ⟨true, some ["OPEN", "200 OK"]⟩ (some "OK")
    (by norm_num) (by norm_num) (by decide)
  exact ⟨by norm_num, by norm_num, by decide, h.2.2.2.2.2.1, h.2.2.2.2.2.2⟩

/-! ### Claim C1: the open-from-Locked timeline -/

theorem goodc1_step (t0 : ℚ) (s : AXAState) (e e2 : ℚ)
    (hg : GoodC1 t0 s e) (he : 0 ≤ e) (hle : e ≤ e2) :
    GoodC1 t0 ((update s (t0 + e2)).2) e2 := by
  obtain ⟨hts, hu, ho, hop⟩ := hg
  have harg : t0 + e2 - t0 = e2 := by ring
  by_cases h5 : e < 5
  · have hs := hu h5
    rw [update_unlocking s (t0 + e2) t0 hs hts, harg]
    by_cases hc1 : e2 < 5
    · rw [if_pos hc1]
      exact ⟨hts, fun _ => hs, fun h _ => absurd hc1 (not_lt.mpr h),
        fun h => absurd hc1 (not_lt.mpr (by linarith))⟩
    · rw [if_neg hc1]
      by_cases hc2 : e2 > 47
      · rw [if_pos hc2]
        exact ⟨hts, fun h => absurd h hc1, fun _ h2 => absurd hc2 (not_lt.mpr h2),
          fun _ => ⟨rfl, rfl⟩⟩
      · rw [if_neg hc2]
        exact ⟨hts, fun h => absurd h hc1, fun _ _ => rfl, fun h => absurd h hc2⟩
  · by_cases h47 : e ≤ 47
    · have hs := ho (not_lt.mp h5) h47
      rw [update_opening s (t0 + e2) t0 hs hts, harg]
      by_cases hc2 : e2 > 47
      · rw [if_pos hc2]
        exact ⟨hts, fun h => absurd h (by push_neg at h5; intro; linarith),
          fun _ h2 => absurd hc2 (not_lt.mpr h2), fun _ => ⟨rfl, rfl⟩⟩
      · rw [if_neg hc2]
        exact ⟨hts, fun h => by push_neg at h5; linarith,
          fun _ _ => hs, fun h => absurd h hc2⟩
    · have hsop := hop (not_le.mp h47)
      rw [update_stable s (t0 + e2) (Or.inr (Or.inr (Or.inr hsop.1)))]
      push_neg at h47
      exact ⟨hts, fun h => by linarith, fun _ h2 => by linarith, fun _ => hsop⟩

theorem reads_good (t0 : ℚ) (l : List ℚ) :
    ∀ (s : AXAState) (tp : ℚ), GoodC1 t0 s (tp - t0) → t0 ≤ tp →
      List.Chain (fun a b => a ≤ b) tp l →
      GoodC1 t0 (reads s l) (l.getLastD tp - t0) := by
  induction l with
  | nil => intro s tp hg _ _; exact hg
  | cons t1 l1 ih =>
    intro s tp hg htp hch
    rw [List.chain_cons] at hch
    obtain ⟨h1, hch1⟩ := hch
    have hstep := goodc1_step t0 s (tp - t0) (t1 - t0) hg (by linarith) (by linarith)
    rw [show t0 + (t1 - t0) = t1 by ring] at hstep
    have hres := ih ((update s t1).2) t1 hstep (le_trans htp h1) hch1
    rw [List.getLastD_cons]
    exact hres

/-- C1: from a state presumed Locked, an open() whose response parses
to raw code 200 returns true, moves the presumed status to Unlocking
and stamps the transition with the call clock t0; then along any
non-decreasing sequence of later status()/position() reads (both run
_update identically), the last read reports Opening whenever its
elapsed time since t0 is in [5, 47], and reports Open at position
exactly 100 whenever its elapsed time exceeds 47 seconds. -/
theorem axa_c1_open_from_locked_timeline :
    ∀ (s : AXAState) (o : CmdOracle) (t0 : ℚ) (m : Option String) (l : List ℚ),
      s.status = STATUS_LOCKED →
      splitResponse (sendCommand s o "OPEN").1 = .ok (some 200, m) →
      List.Chain (fun a b => a ≤ b) t0 l →
      (openOp s o t0).1 = .ok true ∧
      (openOp s o t0).2.status = STATUS_UNLOCKING ∧
      (openOp s o t0).2.timestamp = some t0 ∧
      (5 ≤ l.getLastD t0 - t0 → l.getLastD t0 - t0 ≤ 47 →
        (reads (openOp s o t0).2 l).status = STATUS_OPENING) ∧
      (47 < l.getLastD t0 - t0 →
        (reads (openOp s o t0).2 l).status = STATUS_OPEN ∧
        (reads (openOp s o t0).2 l).position = 100) := by
  intro s o t0 m l hlk hresp hch
  have hopen : openOp s o t0 =
      (.ok true, { (sendCommand s o "OPEN").2 with
        timestamp := some t0, status := STATUS_UNLOCKING }) := by
    unfold openOp
    dsimp only
    rw [hresp]
    dsimp only
    rw [if_pos rfl, sendCommand_status, hlk]
    rw [if_pos rfl]
  have hz : t0 - t0 = 0 := by ring
  have hg0 : GoodC1 t0 (openOp s o t0).2 (t0 - t0) := by
    rw [hopen, hz]
    exact ⟨rfl, fun _ => rfl, fun h1 _ => by linarith, fun h => by linarith⟩
  have hgood := reads_good t0 l ((openOp s o t0).2) t0 hg0 le_rfl hch
  exact ⟨by rw [hopen], by rw [hopen], by rw [hopen], hgood.2.2.1, hgood.2.2.2⟩

/-- C1, witness: the device found Locked at connect; open() succeeds
at clock 0; a single read at clock 50 reports Open at position 100. -/
theorem axa_c1_open_from_locked_timeline_witness :
    (connectOp initState lockedConn).2.status = STATUS_LOCKED ∧
    splitResponse (sendCommand (connectOp initState lockedConn).2 okResp
      "OPEN").1 = .ok (some 200, some "OK") ∧
    List.Chain (fun a b => a ≤ b) (0:ℚ) [(50:ℚ)] ∧
    (reads (openOp (connectOp initState lockedConn).2 okResp 0).2 [50]).status =
      STATUS_OPEN ∧
    (reads (openOp (connectOp initState lockedConn).2 okResp 0).2 [50]).position =
      100 := by
  have hch : List.Chain (fun a b => (a:ℚ) ≤ b) 0 [50] :=
    List.Chain.cons (by norm_num) List.Chain.nil
  have h := axa_c1_open_from_locked_timeline (connectOp initState lockedConn).2
    okResp 0 (some "OK") [50] (by decide) (by decide) hch
  have h47 := h.2.2.2.2 (by norm_num : (47:ℚ) < 50 - 0)
  exact ⟨by decide, by decide, hch, h47.1, h47.2⟩

/-! ### Case analyses of connect() and sync_status() -/

theorem connectFinish_cases (x : AXAState) (oS : CmdOracle) :
    (connectFinish x oS).2.timestamp = x.timestamp ∧
    (((connectFinish x oS).2.status = x.status ∧
      (connectFinish x oS).2.position = x.position ∧
      (connectFinish x oS).1 ≠ .ok true) ∨
     ((connectFinish x oS).1 = .ok true ∧
      (((connectFinish x oS).2.status = STATUS_LOCKED ∧
        (connectFinish x oS).2.position = 0) ∨
       ((connectFinish x oS).2.status = STATUS_OPEN ∧
        (connectFinish x oS).2.position = 100)))) := by
  unfold connectFinish
  dsimp only
  cases h : splitResponse (sendCommand x oS "STATUS").1 with
  | error e =>
    exact ⟨by simp [sendCommand_snd], Or.inl
      ⟨by simp [sendCommand_snd], by simp [sendCommand_snd], by simp⟩⟩
  | ok sr =>
    dsimp only
    split_ifs <;>
      exact ⟨by simp [sendCommand_snd], Or.inr ⟨rfl, by simp [sendCommand_snd]⟩⟩

theorem connectVersion_cases (x : AXAState) (oV oS : CmdOracle) :
    (connectVersion x oV oS).2.timestamp = x.timestamp ∧
    (((connectVersion x oV oS).2.status = x.status ∧
      (connectVersion x oV oS).2.position = x.position ∧
      (connectVersion x oV oS).1 ≠ .ok true) ∨
     ((connectVersion x oV oS).1 = .ok true ∧
      (((connectVersion x oV oS).2.status = STATUS_LOCKED ∧
        (connectVersion x oV oS).2.position = 0) ∨
       ((connectVersion x oV oS).2.status = STATUS_OPEN ∧
        (connectVersion x oV oS).2.position = 100)))) := by
  unfold connectVersion
  dsimp only
  cases h : splitResponse (sendCommand x oV "VERSION").1 with
  | error e =>
    exact ⟨by simp [sendCommand_snd], Or.inl
      ⟨by simp [sendCommand_snd], by simp [sendCommand_snd], by simp⟩⟩
  | ok vr =>
    dsimp only
    cases h2 : (if vr.1 = some RAW_STATUS_VERSION then
        match vr.2 with
        | none => .error .attributeError
        | some m =>
          match pySplit1 m with
          | _ :: v :: _ => .ok { (sendCommand x oV "VERSION").2 with version := some v }
          | _ => .error .indexError
      else (.ok (sendCommand x oV "VERSION").2 : Except PyErr AXAState)) with
    | error e =>
      exact ⟨by simp [sendCommand_snd], Or.inl
        ⟨by simp [sendCommand_snd], by simp [sendCommand_snd], by simp⟩⟩
    | ok s3 =>
      have hs3 : s3.status = x.status ∧ s3.position = x.position ∧
          s3.timestamp = x.timestamp := by
        split at h2
        · split at h2
          · exact absurd h2 (by simp)
          · split at h2
            · injection h2 with h3
              subst h3
              exact ⟨by simp [sendCommand_snd], by simp [sendCommand_snd],
                by simp [sendCommand_snd]⟩
            · exact absurd h2 (by simp)
        · injection h2 with h3
          subst h3
          exact ⟨by simp [sendCommand_snd], by simp [sendCommand_snd],
            by simp [sendCommand_snd]⟩
      have hf := connectFinish_cases s3 oS
      refine ⟨hf.1.trans hs3.2.2, ?_⟩
      rcases hf.2 with ⟨ha, hb, hc⟩ | ⟨ha, hb⟩
      · exact Or.inl ⟨ha.trans hs3.1, hb.trans hs3.2.1, hc⟩
      · exact Or.inr ⟨ha, hb⟩

theorem connectOp_cases (s : AXAState) (oc : ConnOracle) :
    (connectOp s oc).2.timestamp = s.timestamp ∧
    (((connectOp s oc).2.status = s.status ∧
      (connectOp s oc).2.position = s.position ∧
      (connectOp s oc).1 ≠ .ok true) ∨
     ((connectOp s oc).1 = .ok true ∧
      (((connectOp s oc).2.status = STATUS_LOCKED ∧
        (connectOp s oc).2.position = 0) ∨
       ((connectOp s oc).2.status = STATUS_OPEN ∧
        (connectOp s oc).2.position = 100)))) := by
  unfold connectOp
  dsimp only
  split
  · exact ⟨rfl, Or.inl ⟨rfl, rfl, by simp⟩⟩
  · cases hD : (sendCommand { s with connection := s.connection || oc.c0 }
        oc.oD "DEVICE").1 with
    | none =>
      exact ⟨by simp [sendCommand_snd], Or.inl
        ⟨by simp [sendCommand_snd], by simp [sendCommand_snd], by simp⟩⟩
    | some dresp =>
      dsimp only
      cases hS : splitResponse (some dresp) with
      | error e =>
        exact ⟨by simp [sendCommand_snd], Or.inl
          ⟨by simp [sendCommand_snd], by simp [sendCommand_snd], by simp⟩⟩
      | ok dr =>
        dsimp only
        set x := (if dr.1 = some RAW_STATUS_DEVICE
          then { (sendCommand { s with connection := s.connection || oc.c0 }
            oc.oD "DEVICE").2 with device := dr.2 }
          else (sendCommand { s with connection := s.connection || oc.c0 }
            oc.oD "DEVICE").2) with hx
        have hxf : x.status = s.status ∧ x.position = s.position ∧
            x.timestamp = s.timestamp := by
          rw [hx]
          split <;>
            exact ⟨by simp [sendCommand_snd], by simp [sendCommand_snd],
              by simp [sendCommand_snd]⟩
        have hv := connectVersion_cases x oc.oV oc.oS
        refine ⟨hv.1.trans hxf.2.2, ?_⟩
        rcases hv.2 with ⟨ha, hb, hc⟩ | ⟨ha, hb⟩
        · exact Or.inl ⟨ha.trans hxf.1, hb.trans hxf.2.1, hc⟩
        · exact Or.inr ⟨ha, hb⟩

theorem syncBody_eq (s : AXAState) (o : CmdOracle) (rc : Option Int)
    (m : Option String)
    (hr : splitResponse (sendCommand s o "STATUS").1 = .ok (rc, m)) :
    syncBody s o = (.ok (),
      if rc = none then
        { (sendCommand s o "STATUS").2 with status := STATUS_DISCONNECTED }
      else if rc = some RAW_STATUS_STRONG_LOCKED ∧ ¬s.status = STATUS_LOCKED then
        { (sendCommand s o "STATUS").2 with status := STATUS_LOCKED, position := 0 }
      else if rc = some RAW_STATUS_UNLOCKED ∧ s.status = STATUS_LOCKED then
        { (sendCommand s o "STATUS").2 with status := STATUS_OPEN, position := 100 }
      else (sendCommand s o "STATUS").2) := by
  unfold syncBody rawStatusOp
  dsimp only
  rw [hr]
  dsimp only
  rw [sendCommand_status]
  split_ifs <;> rfl

theorem syncBody_cases (s : AXAState) (o : CmdOracle) :
    (syncBody s o).2.timestamp = s.timestamp ∧
    (((syncBody s o).2.status = s.status ∧ (syncBody s o).2.position = s.position) ∨
     ((syncBody s o).2.status = STATUS_DISCONNECTED ∧
      (syncBody s o).2.position = s.position) ∨
     ((syncBody s o).2.status = STATUS_LOCKED ∧ (syncBody s o).2.position = 0) ∨
     ((syncBody s o).2.status = STATUS_OPEN ∧ (syncBody s o).2.position = 100)) := by
  unfold syncBody rawStatusOp
  dsimp only
  cases h : splitResponse (sendCommand s o "STATUS").1 with
  | error e =>
    exact ⟨by simp [sendCommand_snd], Or.inl
      ⟨by simp [sendCommand_snd], by simp [sendCommand_snd]⟩⟩
  | ok rs =>
    dsimp only
    split_ifs
    · exact ⟨by simp [sendCommand_snd], Or.inr (Or.inl
        ⟨by simp [sendCommand_snd], by simp [sendCommand_snd]⟩)⟩
    · exact ⟨by simp [sendCommand_snd], Or.inr (Or.inr (Or.inl
        ⟨by simp [sendCommand_snd], by simp [sendCommand_snd]⟩))⟩
    · exact ⟨by simp [sendCommand_snd], Or.inr (Or.inr (Or.inr
        ⟨by simp [sendCommand_snd], by simp [sendCommand_snd]⟩))⟩
    · exact ⟨by simp [sendCommand_snd], Or.inl
        ⟨by simp [sendCommand_snd], by simp [sendCommand_snd]⟩⟩

/-- C4: when the presumed status is not Disconnected, sync_status sets
it to Disconnected when the STATUS response parses to no code (the
position is untouched); sets Locked and position 0 when the raw code
is 211 and the presumed status was not Locked; sets Open and position
100 when the raw code is 210 and the presumed status was Locked; and
leaves presumed status and position unchanged for every other parsed
code.  When the presumed status is Disconnected, sync_status first
attempts to reconnect and returns with presumed status, position and
timestamp unchanged if that fails. -/
theorem axa_c4_sync_status_cases :
    ∀ (s : AXAState) (oc : ConnOracle) (o : CmdOracle),
      (s.status ≠ STATUS_DISCONNECTED →
        (∀ m, splitResponse (sendCommand s o "STATUS").1 = .ok (none, m) →
          (syncStatus s oc o).2.status = STATUS_DISCONNECTED ∧
          (syncStatus s oc o).2.position = s.position) ∧
        (∀ m, splitResponse (sendCommand s o "STATUS").1 =
            .ok (some RAW_STATUS_STRONG_LOCKED, m) →
          s.status ≠ STATUS_LOCKED →
          (syncStatus s oc o).2.status = STATUS_LOCKED ∧
          (syncStatus s oc o).2.position = 0) ∧
        (∀ m, splitResponse (sendCommand s o "STATUS").1 =
            .ok (some RAW_STATUS_UNLOCKED, m) →
          s.status = STATUS_LOCKED →
          (syncStatus s oc o).2.status = STATUS_OPEN ∧
          (syncStatus s oc o).2.position = 100) ∧
        (∀ (n : Int) (m : Option String),
          splitResponse (sendCommand s o "STATUS").1 = .ok (some n, m) →
          ¬(n = RAW_STATUS_STRONG_LOCKED ∧ s.status ≠ STATUS_LOCKED) →
          ¬(n = RAW_STATUS_UNLOCKED ∧ s.status = STATUS_LOCKED) →
          (syncStatus s oc o).2.status = s.status ∧
          (syncStatus s oc o).2.position = s.position)) ∧
      (s.status = STATUS_DISCONNECTED → (connectOp s oc).1 = .ok false →
        (syncStatus s oc o).2.status = s.status ∧
        (syncStatus s oc o).2.position = s.position ∧
        (syncStatus s oc o).2.timestamp = s.timestamp) := by
  intro s oc o
  constructor
  · intro hne
    have hsync : syncStatus s oc o = syncBody s o := by
      unfold syncStatus
      rw [if_neg hne]
    refine ⟨?_, ?_, ?_, ?_⟩
    · intro m hr
      rw [hsync, syncBody_eq s o none m hr, if_pos rfl]
      exact ⟨rfl, by simp [sendCommand_snd]⟩
    · intro m hr hnl
      rw [hsync, syncBody_eq s o (some RAW_STATUS_STRONG_LOCKED) m hr]
      rw [if_neg (by simp), if_pos ⟨rfl, hnl⟩]
      exact ⟨rfl, rfl⟩
    · intro m hr hl
      rw [hsync, syncBody_eq s o (some RAW_STATUS_UNLOCKED) m hr]
      rw [if_neg (by simp), if_neg (fun hc => absurd hc.1 (by decide)),
        if_pos ⟨rfl, hl⟩]
      exact ⟨rfl, rfl⟩
    · intro n m hr h1 h2
      rw [hsync, syncBody_eq s o (some n) m hr]
      rw [if_neg (by simp),
        if_neg (fun hc => h1 ⟨Option.some.inj hc.1, hc.2⟩),
        if_neg (fun hc => h2 ⟨Option.some.inj hc.1, hc.2⟩)]
      exact ⟨sendCommand_status s o "STATUS", sendCommand_position s o "STATUS"⟩
  · intro hd hcf
    have hp : connectOp s oc = (.ok false, (connectOp s oc).2) := by
      conv_lhs => rw [show connectOp s oc =
        ((connectOp s oc).1, (connectOp s oc).2) from rfl]
      rw [hcf]
    have hsync : syncStatus s oc o = (.ok (), (connectOp s oc).2) := by
      unfold syncStatus
      rw [if_pos hd, hp]
    have hcc := connectOp_cases s oc
    rcases hcc.2 with ⟨ha, hb, _⟩ | ⟨ha, _⟩
    · rw [hsync]
      exact ⟨ha, hb, hcc.1⟩
    · exact absurd (ha.symm.trans hcf) (by simp)

/-- C4, witness: presumed Open (seeded via set_position(100)), the
device reports 211; sync_status forces Locked at position 0. -/
theorem axa_c4_sync_status_cases_witness :
    (setPosition initState 100).2.status ≠ STATUS_DISCONNECTED ∧
    splitResponse (sendCommand (setPosition initState 100).2
      ⟨true, some ["STATUS", "211 Strong Locked"]⟩ "STATUS").1 =
      .ok (some 211, some "Strong Locked") ∧
    (setPosition initState 100).2.status ≠ STATUS_LOCKED ∧
    (syncStatus (setPosition initState 100).2 lockedConn
      ⟨true, some ["STATUS", "211 Strong Locked"]⟩).2.status = STATUS_LOCKED ∧
    (syncStatus (setPosition initState 100).2 lockedConn
      ⟨true, some ["STATUS", "211 Strong Locked"]⟩).2.position = 0 := by
  have h := (axa_c4_sync_status_cases (setPosition initState 100).2 lockedConn
    ⟨true, some ["STATUS", "211 Strong Locked"]⟩).1 (by decide)
  have h2 := h.2.1 (some "Strong Locked") (by decide) (by decide)
  exact ⟨by decide, by decide, by decide, h2.1, h2.2⟩


/-! ### The position invariant (claims C5, C6) -/

theorem ratio_nonneg (a b : ℚ) (ha : 0 ≤ a) (hb : 0 < b) : 0 ≤ a / b * 100 :=
  mul_nonneg (div_nonneg ha hb.le) (by norm_num)

theorem ratio_le_100 (a b : ℚ) (hab : a ≤ b) (hb : 0 < b) :
    a / b * 100 ≤ 100 := by
  have h1 : a / b ≤ 1 := (div_le_one hb).mpr hab
  calc a / b * 100 ≤ 1 * 100 := by
        exact mul_le_mul_of_nonneg_right h1 (by norm_num)
    _ = 100 := one_mul 100

theorem inv_mono (s : AXAState) (t t2 : ℚ) (h : Inv s t) (hle : t ≤ t2) :
    Inv s t2 := by
  obtain ⟨h0, h1, hU, hO, hC, hL⟩ := h
  exact ⟨h0, h1,
    fun hs => (hU hs).imp (fun u hu => ⟨hu.1, hu.2.trans hle⟩),
    fun hs => (hO hs).imp (fun u hu => ⟨hu.1, hu.2.trans hle⟩),
    fun hs => (hC hs).imp (fun u hu => ⟨hu.1, hu.2.trans hle⟩),
    fun hs => (hL hs).imp (fun u hu => ⟨hu.1, hu.2.trans hle⟩)⟩

theorem inv_transfer (s s2 : AXAState) (t : ℚ) (hi : Inv s t)
    (hst : s2.status = s.status) (hpos : s2.position = s.position)
    (hts : s2.timestamp = s.timestamp) : Inv s2 t := by
  obtain ⟨h0, h1, hU, hO, hC, hL⟩ := hi
  refine ⟨hpos ▸ h0, hpos ▸ h1, ?_, ?_, ?_, ?_⟩ <;> intro hs
  · exact (hU (hst.symm.trans hs)).imp (fun u hu => ⟨hts.trans hu.1, hu.2⟩)
  · exact (hO (hst.symm.trans hs)).imp (fun u hu => ⟨hts.trans hu.1, hu.2⟩)
  · exact (hC (hst.symm.trans hs)).imp (fun u hu => ⟨hts.trans hu.1, hu.2⟩)
  · exact (hL (hst.symm.trans hs)).imp (fun u hu => ⟨hts.trans hu.1, hu.2⟩)

theorem inv_stable_state (s2 : AXAState) (t : ℚ)
    (hstb : s2.status = STATUS_DISCONNECTED ∨ s2.status = STATUS_LOCKED ∨
      s2.status = STATUS_STOPPED ∨ s2.status = STATUS_OPEN)
    (h0 : 0 ≤ s2.position) (h1 : s2.position ≤ 100) : Inv s2 t := by
  refine ⟨h0, h1, ?_, ?_, ?_, ?_⟩ <;> intro hs <;>
    rcases hstb with h | h | h | h <;> exact absurd (h.symm.trans hs) (by decide)

theorem update_inv (s : AXAState) (t now : ℚ) (hi : Inv s t) (hle : t ≤ now) :
    Inv ((update s now).2) now := by
  have hi2 : Inv s now := inv_mono s t now hi hle
  obtain ⟨h0, h1, hU, hO, hC, hL⟩ := hi2
  by_cases hstb : s.status = STATUS_DISCONNECTED ∨ s.status = STATUS_LOCKED ∨
      s.status = STATUS_STOPPED ∨ s.status = STATUS_OPEN
  · rw [update_stable s now hstb]
    exact ⟨h0, h1, hU, hO, hC, hL⟩
  · by_cases hU2 : s.status = STATUS_UNLOCKING
    · obtain ⟨u, hu, hut⟩ := hU hU2
      rw [update_unlocking s now u hU2 hu]
      by_cases hc1 : now - u < 5
      · rw [if_pos hc1]
        exact ⟨ratio_nonneg _ _ (by linarith) (by norm_num),
          ratio_le_100 _ _ (by linarith) (by norm_num),
          fun _ => ⟨u, hu, by linarith⟩,
          fun h3 => absurd (hU2.symm.trans h3) (by decide),
          fun h3 => absurd (hU2.symm.trans h3) (by decide),
          fun h3 => absurd (hU2.symm.trans h3) (by decide)⟩
      · rw [if_neg hc1]
        push_neg at hc1
        by_cases hc2 : now - u > 47
        · rw [if_pos hc2]
          exact ⟨by norm_num, by norm_num,
            fun h3 => by simp at h3, fun h3 => by simp at h3,
            fun h3 => by simp at h3, fun h3 => by simp at h3⟩
        · rw [if_neg hc2]
          push_neg at hc2
          exact ⟨ratio_nonneg _ _ (by linarith) (by norm_num),
            ratio_le_100 _ _ (by linarith) (by norm_num),
            fun h3 => by simp at h3,
            fun _ => ⟨u, hu, by linarith⟩,
            fun h3 => by simp at h3, fun h3 => by simp at h3⟩
    · by_cases hO2 : s.status = STATUS_OPENING
      · obtain ⟨u, hu, hut⟩ := hO hO2
        rw [update_opening s now u hO2 hu]
        by_cases hc2 : now - u > 47
        · rw [if_pos hc2]
          exact ⟨by norm_num, by norm_num,
            fun h3 => by simp at h3, fun h3 => by simp at h3,
            fun h3 => by simp at h3, fun h3 => by simp at h3⟩
        · rw [if_neg hc2]
          push_neg at hc2
          exact ⟨ratio_nonneg _ _ (by linarith) (by norm_num),
            ratio_le_100 _ _ (by linarith) (by norm_num),
            fun h3 => absurd (hO2.symm.trans h3) (by decide),
            fun _ => ⟨u, hu, by linarith⟩,
            fun h3 => absurd (hO2.symm.trans h3) (by decide),
            fun h3 => absurd (hO2.symm.trans h3) (by decide)⟩
      · by_cases hC2 : s.status = STATUS_CLOSING
        · obtain ⟨u, hu, hut⟩ := hC hC2
          rw [update_closing s now u hC2 hu]
          by_cases hc1 : now - u < 42
          · rw [if_pos hc1]
            have ha := ratio_nonneg (now - u) 42 (by linarith) (by norm_num)
            have hb := ratio_le_100 (now - u) 42 (by linarith) (by norm_num)
            exact ⟨by linarith, by linarith,
              fun h3 => absurd (hC2.symm.trans h3) (by decide),
              fun h3 => absurd (hC2.symm.trans h3) (by decide),
              fun _ => ⟨u, hu, by linarith⟩,
              fun h3 => absurd (hC2.symm.trans h3) (by decide)⟩
          · rw [if_neg hc1]
            push_neg at hc1
            by_cases hc2 : now - u > 58
            · rw [if_pos hc2]
              exact ⟨by norm_num, by norm_num,
                fun h3 => by simp at h3, fun h3 => by simp at h3,
                fun h3 => by simp at h3, fun h3 => by simp at h3⟩
            · rw [if_neg hc2]
              push_neg at hc2
              have ha := ratio_nonneg (now - u - 42) 16 (by linarith) (by norm_num)
              have hb := ratio_le_100 (now - u - 42) 16 (by linarith) (by norm_num)
              exact ⟨by linarith, by linarith,
                fun h3 => by simp at h3, fun h3 => by simp at h3,
                fun h3 => by simp at h3,
                fun _ => ⟨u, hu, by linarith⟩⟩
        · by_cases hL2 : s.status = STATUS_LOCKING
          · obtain ⟨u, hu, hut⟩ := hL hL2
            rw [update_locking s now u hL2 hu]
            by_cases hc2 : now - u > 58
            · rw [if_pos hc2]
              exact ⟨by norm_num, by norm_num,
                fun h3 => by simp at h3, fun h3 => by simp at h3,
                fun h3 => by simp at h3, fun h3 => by simp at h3⟩
            · rw [if_neg hc2]
              push_neg at hc2
              have ha := ratio_nonneg (now - u - 42) 16 (by linarith) (by norm_num)
              have hb := ratio_le_100 (now - u - 42) 16 (by linarith) (by norm_num)
              exact ⟨by linarith, by linarith,
                fun h3 => absurd (hL2.symm.trans h3) (by decide),
                fun h3 => absurd (hL2.symm.trans h3) (by decide),
                fun h3 => absurd (hL2.symm.trans h3) (by decide),
                fun _ => ⟨u, hu, by linarith⟩⟩
          · cases hts : s.timestamp with
            | none =>
              rw [update_no_timestamp s now hstb hts]
              exact ⟨h0, h1, hU, hO, hC, hL⟩
            | some u =>
              rw [update_moving_other s now u hstb hU2 hO2 hC2 hL2 hts]
              exact ⟨h0, h1, hU, hO, hC, hL⟩

theorem openOp_eq (s : AXAState) (o : CmdOracle) (now : ℚ) :
    openOp s o now =
      match splitResponse (sendCommand s o "OPEN").1 with
      | .error e => (.error e, (sendCommand s o "OPEN").2)
      | .ok resp =>
        if resp.1 = some RAW_STATUS_OK then
          if s.status = STATUS_LOCKED then
            (.ok true, { (sendCommand s o "OPEN").2 with
              timestamp := some now, status := STATUS_UNLOCKING })
          else if s.status = STATUS_STOPPED then
            (.ok true, { (sendCommand s o "OPEN").2 with status := STATUS_OPENING })
          else (.ok true, (sendCommand s o "OPEN").2)
        else (.ok false, (sendCommand s o "OPEN").2) := by
  unfold openOp
  dsimp only
  rw [sendCommand_status]

theorem closeOp_eq (s : AXAState) (o : CmdOracle) (now : ℚ) :
    closeOp s o now =
      match splitResponse (sendCommand s o "CLOSE").1 with
      | .error e => (.error e, (sendCommand s o "CLOSE").2)
      | .ok resp =>
        if resp.1 = some RAW_STATUS_OK then
          if s.status = STATUS_OPEN then
            (.ok true, { (sendCommand s o "CLOSE").2 with
              timestamp := some now, status := STATUS_CLOSING })
          else if s.status = STATUS_STOPPED then
            (.ok true, { (sendCommand s o "CLOSE").2 with status := STATUS_CLOSING })
          else (.ok true, (sendCommand s o "CLOSE").2)
        else (.ok false, (sendCommand s o "CLOSE").2) := by
  unfold closeOp
  dsimp only
  rw [sendCommand_status]

theorem stopOp_snd (s : AXAState) (o : CmdOracle) :
    (stopOp s o).2 = { s with connection := s.connection || o.connectOk } := by
  unfold stopOp
  dsimp only
  cases h : splitResponse (sendCommand s o "STOP").1 with
  | error e => exact sendCommand_snd s o "STOP"
  | ok resp =>
    dsimp only
    split_ifs <;> exact sendCommand_snd s o "STOP"

theorem rawStatusOp_snd (s : AXAState) (o : CmdOracle) :
    (rawStatusOp s o).2 = { s with connection := s.connection || o.connectOk } := by
  unfold rawStatusOp
  dsimp only
  cases h : splitResponse (sendCommand s o "STATUS").1 with
  | error e => exact sendCommand_snd s o "STATUS"
  | ok resp => exact sendCommand_snd s o "STATUS"

theorem syncStatus_cases (s : AXAState) (oc : ConnOracle) (o : CmdOracle) :
    (syncStatus s oc o).2.timestamp = s.timestamp ∧
    (((syncStatus s oc o).2.status = s.status ∧
      (syncStatus s oc o).2.position = s.position) ∨
     ((syncStatus s oc o).2.status = STATUS_DISCONNECTED ∧
      ((syncStatus s oc o).2.position = s.position ∨
       (syncStatus s oc o).2.position = 0 ∨
       (syncStatus s oc o).2.position = 100)) ∨
     ((syncStatus s oc o).2.status = STATUS_LOCKED ∧
      (syncStatus s oc o).2.position = 0) ∨
     ((syncStatus s oc o).2.status = STATUS_OPEN ∧
      (syncStatus s oc o).2.position = 100)) := by
  unfold syncStatus
  split_ifs with hd
  · have hcc := connectOp_cases s oc
    cases hc : connectOp s oc with
    | mk r1 s1 =>
      rw [hc] at hcc
      dsimp only at hcc
      cases r1 with
      | error e =>
        exact ⟨hcc.1, Or.inl (by
          rcases hcc.2 with ⟨ha, hb, _⟩ | ⟨ha, _⟩
          · exact ⟨ha, hb⟩
          · exact absurd ha (by simp))⟩
      | ok b =>
        cases b with
        | false =>
          exact ⟨hcc.1, Or.inl (by
            rcases hcc.2 with ⟨ha, hb, _⟩ | ⟨ha, _⟩
            · exact ⟨ha, hb⟩
            · exact absurd ha (by simp))⟩
        | true =>
          have hs1 : (s1.status = STATUS_LOCKED ∧ s1.position = 0) ∨
              (s1.status = STATUS_OPEN ∧ s1.position = 100) := by
            rcases hcc.2 with ⟨_, _, hc3⟩ | ⟨_, hb⟩
            · exact absurd rfl hc3
            · exact hb
          have hsb := syncBody_cases s1 o
          refine ⟨hsb.1.trans hcc.1, ?_⟩
          rcases hsb.2 with ⟨ha, hb⟩ | ⟨ha, hb⟩ | ⟨ha, hb⟩ | ⟨ha, hb⟩
          · rcases hs1 with ⟨hx, hy⟩ | ⟨hx, hy⟩
            · exact Or.inr (Or.inr (Or.inl ⟨ha.trans hx, hb.trans hy⟩))
            · exact Or.inr (Or.inr (Or.inr ⟨ha.trans hx, hb.trans hy⟩))
          · rcases hs1 with ⟨hx, hy⟩ | ⟨hx, hy⟩
            · exact Or.inr (Or.inl ⟨ha, Or.inr (Or.inl (hb.trans hy))⟩)
            · exact Or.inr (Or.inl ⟨ha, Or.inr (Or.inr (hb.trans hy))⟩)
          · exact Or.inr (Or.inr (Or.inl ⟨ha, hb⟩))
          · exact Or.inr (Or.inr (Or.inr ⟨ha, hb⟩))
  · have hsb := syncBody_cases s o
    refine ⟨hsb.1, ?_⟩
    rcases hsb.2 with ⟨ha, hb⟩ | ⟨ha, hb⟩ | ⟨ha, hb⟩ | ⟨ha, hb⟩
    · exact Or.inl ⟨ha, hb⟩
    · exact Or.inr (Or.inl ⟨ha, Or.inl hb⟩)
    · exact Or.inr (Or.inr (Or.inl ⟨ha, hb⟩))
    · exact Or.inr (Or.inr (Or.inr ⟨ha, hb⟩))

theorem inv_applyOp (s : AXAState) (t2 : ℚ) (op : Op)
    (hp : NoMotionFromStopped s t2 op) (hi : Inv s t2) :
    Inv (applyOp s t2 op) t2 := by
  cases op with
  | connectCmd oc =>
    have hc := connectOp_cases s oc
    show Inv (connectOp s oc).2 t2
    rcases hc.2 with ⟨ha, hb, _⟩ | ⟨_, ⟨ha, hb⟩ | ⟨ha, hb⟩⟩
    · exact inv_transfer s _ t2 hi ha hb hc.1
    · exact inv_stable_state _ t2 (Or.inr (Or.inl ha)) (by rw [hb]) (by rw [hb]; norm_num)
    · exact inv_stable_state _ t2 (Or.inr (Or.inr (Or.inr ha))) (by rw [hb]; norm_num) (by rw [hb])
  | disconnectCmd =>
    exact inv_transfer s _ t2 hi rfl rfl rfl
  | openCmd o =>
    show Inv (openOp s o t2).2 t2
    cases hsr : splitResponse (sendCommand s o "OPEN").1 with
    | error e =>
      have h2 : (openOp s o t2).2 = (sendCommand s o "OPEN").2 := by
        rw [openOp_eq, hsr]
      rw [h2]
      exact inv_transfer s _ t2 hi (sendCommand_status s o "OPEN")
        (sendCommand_position s o "OPEN") (sendCommand_timestamp s o "OPEN")
    | ok resp =>
      by_cases hok : resp.1 = some RAW_STATUS_OK
      · by_cases hlk : s.status = STATUS_LOCKED
        · have h2 : (openOp s o t2).2 = { (sendCommand s o "OPEN").2 with
              timestamp := some t2, status := STATUS_UNLOCKING } := by
            rw [openOp_eq, hsr]
            dsimp only
            rw [if_pos hok, if_pos hlk]
          rw [h2]
          obtain ⟨h0, h1, _, _, _, _⟩ := hi
          refine ⟨?_, ?_, fun _ => ⟨t2, rfl, le_rfl⟩,
            fun h3 => by simp at h3, fun h3 => by simp at h3,
            fun h3 => by simp at h3⟩
          · show 0 ≤ (sendCommand s o "OPEN").2.position
            rw [sendCommand_position]
            exact h0
          · show (sendCommand s o "OPEN").2.position ≤ 100
            rw [sendCommand_position]
            exact h1
        · by_cases hstp : s.status = STATUS_STOPPED
          · have h2 : (openOp s o t2).1 = .ok true := by
              rw [openOp_eq, hsr]
              dsimp only
              rw [if_pos hok, if_neg hlk, if_pos hstp]
            exact absurd ⟨hstp, h2⟩ hp
          · have h2 : (openOp s o t2).2 = (sendCommand s o "OPEN").2 := by
              rw [openOp_eq, hsr]
              dsimp only
              rw [if_pos hok, if_neg hlk, if_neg hstp]
            rw [h2]
            exact inv_transfer s _ t2 hi (sendCommand_status s o "OPEN")
              (sendCommand_position s o "OPEN") (sendCommand_timestamp s o "OPEN")
      · have h2 : (openOp s o t2).2 = (sendCommand s o "OPEN").2 := by
          rw [openOp_eq, hsr]
          dsimp only
          rw [if_neg hok]
        rw [h2]
        exact inv_transfer s _ t2 hi (sendCommand_status s o "OPEN")
          (sendCommand_position s o "OPEN") (sendCommand_timestamp s o "OPEN")
  | closeCmd o =>
    show Inv (closeOp s o t2).2 t2
    cases hsr : splitResponse (sendCommand s o "CLOSE").1 with
    | error e =>
      have h2 : (closeOp s o t2).2 = (sendCommand s o "CLOSE").2 := by
        rw [closeOp_eq, hsr]
      rw [h2]
      exact inv_transfer s _ t2 hi (sendCommand_status s o "CLOSE")
        (sendCommand_position s o "CLOSE") (sendCommand_timestamp s o "CLOSE")
    | ok resp =>
      by_cases hok : resp.1 = some RAW_STATUS_OK
      · by_cases hop : s.status = STATUS_OPEN
        · have h2 : (closeOp s o t2).2 = { (sendCommand s o "CLOSE").2 with
              timestamp := some t2, status := STATUS_CLOSING } := by
            rw [closeOp_eq, hsr]
            dsimp only
            rw [if_pos hok, if_pos hop]
          rw [h2]
          obtain ⟨h0, h1, _, _, _, _⟩ := hi
          refine ⟨?_, ?_, fun h3 => by simp at h3, fun h3 => by simp at h3,
            fun _ => ⟨t2, rfl, le_rfl⟩, fun h3 => by simp at h3⟩
          · show 0 ≤ (sendCommand s o "CLOSE").2.position
            rw [sendCommand_position]
            exact h0
          · show (sendCommand s o "CLOSE").2.position ≤ 100
            rw [sendCommand_position]
            exact h1
        · by_cases hstp : s.status = STATUS_STOPPED
          · have h2 : (closeOp s o t2).1 = .ok true := by
              rw [closeOp_eq, hsr]
              dsimp only
              rw [if_pos hok, if_neg hop, if_pos hstp]
            exact absurd ⟨hstp, h2⟩ hp
          · have h2 : (closeOp s o t2).2 = (sendCommand s o "CLOSE").2 := by
              rw [closeOp_eq, hsr]
              dsimp only
              rw [if_pos hok, if_neg hop, if_neg hstp]
            rw [h2]
            exact inv_transfer s _ t2 hi (sendCommand_status s o "CLOSE")
              (sendCommand_position s o "CLOSE") (sendCommand_timestamp s o "CLOSE")
      · have h2 : (closeOp s o t2).2 = (sendCommand s o "CLOSE").2 := by
          rw [closeOp_eq, hsr]
          dsimp only
          rw [if_neg hok]
        rw [h2]
        exact inv_transfer s _ t2 hi (sendCommand_status s o "CLOSE")
          (sendCommand_position s o "CLOSE") (sendCommand_timestamp s o "CLOSE")
  | stopCmd o =>
    show Inv (stopOp s o).2 t2
    rw [stopOp_snd]
    exact inv_transfer s _ t2 hi rfl rfl rfl
  | syncCmd oc o =>
    have hc := syncStatus_cases s oc o
    show Inv (syncStatus s oc o).2 t2
    obtain ⟨h0, h1, _, _, _, _⟩ := hi
    rcases hc.2 with ⟨ha, hb⟩ | ⟨ha, hb⟩ | ⟨ha, hb⟩ | ⟨ha, hb⟩
    · exact inv_transfer s _ t2 ⟨h0, h1, by assumption, by assumption,
        by assumption, by assumption⟩ ha hb hc.1
    · refine inv_stable_state _ t2 (Or.inl ha) ?_ ?_ <;>
        rcases hb with hb | hb | hb <;> rw [hb] <;> first | exact h0 | exact h1 | norm_num
    · exact inv_stable_state _ t2 (Or.inr (Or.inl ha)) (by rw [hb]) (by rw [hb]; norm_num)
    · exact inv_stable_state _ t2 (Or.inr (Or.inr (Or.inr ha))) (by rw [hb]; norm_num) (by rw [hb])
  | statusCmd =>
    exact update_inv s t2 t2 hi le_rfl
  | positionCmd =>
    exact update_inv s t2 t2 hi le_rfl
  | setPositionCmd p =>
    show Inv (setPosition s p).2 t2
    rw [setPosition_eq s p hp]
    refine inv_stable_state _ t2 ?_ hp.1 hp.2
    dsimp only
    split_ifs
    · exact Or.inr (Or.inl rfl)
    · exact Or.inr (Or.inr (Or.inr rfl))
    · exact Or.inr (Or.inr (Or.inl rfl))
  | rawStatusCmd o =>
    show Inv (rawStatusOp s o).2 t2
    rw [rawStatusOp_snd]
    exact inv_transfer s _ t2 hi rfl rfl rfl

theorem reach_inv (s : AXAState) (t : ℚ)
    (h : Reach NoMotionFromStopped s t) : Inv s t := by
  induction h with
  | init t =>
    exact ⟨(by norm_num : (0:ℚ) ≤ 0), (by norm_num : (0:ℚ) ≤ 100),
      fun hs => absurd hs (by decide), fun hs => absurd hs (by decide),
      fun hs => absurd hs (by decide), fun hs => absurd hs (by decide)⟩
  | step s t t2 op h hle hp ih =>
    exact inv_applyOp s t2 op hp (inv_mono s t t2 ih hle)

/-- C5, counterexample: with set_position arguments kept in [0, 100],
the trace connect() (Locked), open() at clock 10, set_position(50),
open() at clock 12, status() at clock 12 is reachable, yet the stored
position of the final state is -50/7, outside [0.0, 100.0]: the second
open() starts Opening from Stopped against the stale timestamp 10. -/
theorem axa_c5_position_counterexample :
    Reach InRangeSeeds c5final 12 ∧ c5final.position < 0 := by
  constructor
  · have h0 : Reach InRangeSeeds initState 0 := Reach.init 0
    have h1 := Reach.step initState 0 0 (.connectCmd lockedConn) h0
      le_rfl trivial
    have h2 := Reach.step _ 0 10 (.openCmd okResp) h1 (by norm_num) trivial
    have h3 := Reach.step _ 10 10 (.setPositionCmd 50) h2 le_rfl
      ⟨by norm_num, by norm_num⟩
    have h4 := Reach.step _ 10 12 (.openCmd okResp) h3 (by norm_num) trivial
    have h5 := Reach.step _ 12 12 .statusCmd h4 le_rfl trivial
    exact h5
  · have hst : c5state.status = STATUS_OPENING := by decide
    have hts : c5state.timestamp = some 10 := by decide
    have hupd := update_opening c5state 12 10 hst hts
    show (update c5state 12).2.position < 0
    rw [hupd]
    rw [if_neg (by norm_num : ¬((12:ℚ) - 10 > 47))]
    dsimp only
    norm_num

/-- C5, amended: in every state reachable from a fresh instance
through public operations invoked at non-decreasing clock values, with
set_position arguments in [0, 100] and with open()/close() never
succeeding while the presumed status is Stopped (the un-anchored
transition of the C5 counterexample), the stored position is in
[0.0, 100.0]. -/
theorem axa_c5_position_range_amended :
    ∀ (s : AXAState) (t : ℚ), Reach NoMotionFromStopped s t →
      0 ≤ s.position ∧ s.position ≤ 100 := by
  intro s t h
  have hi := reach_inv s t h
  exact ⟨hi.1, hi.2.1⟩

/-- C5, amended, witness: the state after a connect() that found the
device locked. -/
theorem axa_c5_position_range_amended_witness :
    0 ≤ (applyOp initState 0 (.connectCmd lockedConn)).position ∧
    (applyOp initState 0 (.connectCmd lockedConn)).position ≤ 100 :=
  axa_c5_position_range_amended (applyOp initState 0 (.connectCmd lockedConn)) 0
    (Reach.step initState 0 0 (.connectCmd lockedConn) (Reach.init 0)
      le_rfl trivial)

/-! ### The timestamp invariant (claim C6) -/

theorem tsinv_update (s : AXAState) (now : ℚ) (h : TsInv s) :
    TsInv (update s now).2 := by
  by_cases hstb : s.status = STATUS_DISCONNECTED ∨ s.status = STATUS_LOCKED ∨
      s.status = STATUS_STOPPED ∨ s.status = STATUS_OPEN
  · rw [update_stable s now hstb]
    exact h
  · by_cases hU2 : s.status = STATUS_UNLOCKING
    · have hts := h (Or.inl hU2)
      cases hu : s.timestamp with
      | none => exact absurd hu hts
      | some u =>
        rw [update_unlocking s now u hU2 hu]
        split_ifs
        · intro _
          simp [hu]
        · intro hs
          rcases hs with hs | hs <;> simp at hs
        · intro hs
          rcases hs with hs | hs <;> simp at hs
    · by_cases hO2 : s.status = STATUS_OPENING
      · cases hu : s.timestamp with
        | none =>
          rw [update_no_timestamp s now hstb hu]
          exact h
        | some u =>
          rw [update_opening s now u hO2 hu]
          split_ifs
          · intro hs
            rcases hs with hs | hs <;> simp at hs
          · intro hs
            rcases hs with hs | hs <;> exact absurd (hO2.symm.trans hs) (by decide)
      · by_cases hC2 : s.status = STATUS_CLOSING
        · cases hu : s.timestamp with
          | none =>
            rw [update_no_timestamp s now hstb hu]
            exact h
          | some u =>
            rw [update_closing s now u hC2 hu]
            split_ifs
            · intro hs
              rcases hs with hs | hs <;> exact absurd (hC2.symm.trans hs) (by decide)
            · intro hs
              rcases hs with hs | hs <;> simp at hs
            · intro _
              simp [hu]
        · by_cases hL2 : s.status = STATUS_LOCKING
          · have hts := h (Or.inr hL2)
            cases hu : s.timestamp with
            | none => exact absurd hu hts
            | some u =>
              rw [update_locking s now u hL2 hu]
              split_ifs
              · intro hs
                rcases hs with hs | hs <;> simp at hs
              · intro _
                simp [hu]
          · cases hu : s.timestamp with
            | none =>
              rw [update_no_timestamp s now hstb hu]
              exact h
            | some u =>
              rw [update_moving_other s now u hstb hU2 hO2 hC2 hL2 hu]
              exact h

theorem tsinv_applyOp (s : AXAState) (t2 : ℚ) (op : Op) (h : TsInv s) :
    TsInv (applyOp s t2 op) := by
  cases op with
  | connectCmd oc =>
    have hc := connectOp_cases s oc
    show TsInv (connectOp s oc).2
    intro hs
    rw [hc.1]
    rcases hc.2 with ⟨ha, _, _⟩ | ⟨_, ⟨ha, _⟩ | ⟨ha, _⟩⟩
    · exact h (by rwa [ha] at hs)
    · rcases hs with hs | hs <;> exact absurd (ha.symm.trans hs) (by decide)
    · rcases hs with hs | hs <;> exact absurd (ha.symm.trans hs) (by decide)
  | disconnectCmd =>
    intro hs
    exact h hs
  | stopCmd o =>
    show TsInv (stopOp s o).2
    rw [stopOp_snd]
    intro hs
    exact h hs
  | rawStatusCmd o =>
    show TsInv (rawStatusOp s o).2
    rw [rawStatusOp_snd]
    intro hs
    exact h hs
  | syncCmd oc o =>
    have hc := syncStatus_cases s oc o
    show TsInv (syncStatus s oc o).2
    intro hs
    rw [hc.1]
    rcases hc.2 with ⟨ha, _⟩ | ⟨ha, _⟩ | ⟨ha, _⟩ | ⟨ha, _⟩
    · exact h (by rwa [ha] at hs)
    · rcases hs with hs | hs <;> exact absurd (ha.symm.trans hs) (by decide)
    · rcases hs with hs | hs <;> exact absurd (ha.symm.trans hs) (by decide)
    · rcases hs with hs | hs <;> exact absurd (ha.symm.trans hs) (by decide)
  | setPositionCmd p =>
    show TsInv (setPosition s p).2
    by_cases hin : 0 ≤ p ∧ p ≤ 100
    · rw [setPosition_eq s p hin]
      intro hs
      rcases hs with hs | hs <;> revert hs <;> dsimp only <;>
        split_ifs <;> intro hs <;> exact absurd hs (by decide)
    · have h2 : setPosition s p = (.error .assertionError, s) := by
        unfold setPosition
        rw [if_neg hin]
      rw [h2]
      exact h
  | openCmd o =>
    show TsInv (openOp s o t2).2
    cases hsr : splitResponse (sendCommand s o "OPEN").1 with
    | error e =>
      have h2 : (openOp s o t2).2 = (sendCommand s o "OPEN").2 := by
        rw [openOp_eq, hsr]
      rw [h2, sendCommand_snd]
      intro hs
      exact h hs
    | ok resp =>
      by_cases hok : resp.1 = some RAW_STATUS_OK
      · by_cases hlk : s.status = STATUS_LOCKED
        · have h2 : (openOp s o t2).2 = { (sendCommand s o "OPEN").2 with
              timestamp := some t2, status := STATUS_UNLOCKING } := by
            rw [openOp_eq, hsr]
            dsimp only
            rw [if_pos hok, if_pos hlk]
          rw [h2]
          intro _
          simp
        · by_cases hstp : s.status = STATUS_STOPPED
          · have h2 : (openOp s o t2).2 = { (sendCommand s o "OPEN").2 with
                status := STATUS_OPENING } := by
              rw [openOp_eq, hsr]
              dsimp only
              rw [if_pos hok, if_neg hlk, if_pos hstp]
            rw [h2]
            intro hs
            rcases hs with hs | hs <;> simp at hs
          · have h2 : (openOp s o t2).2 = (sendCommand s o "OPEN").2 := by
              rw [openOp_eq, hsr]
              dsimp only
              rw [if_pos hok, if_neg hlk, if_neg hstp]
            rw [h2, sendCommand_snd]
            intro hs
            exact h hs
      · have h2 : (openOp s o t2).2 = (sendCommand s o "OPEN").2 := by
          rw [openOp_eq, hsr]
          dsimp only
          rw [if_neg hok]
        rw [h2, sendCommand_snd]
        intro hs
        exact h hs
  | closeCmd o =>
    show TsInv (closeOp s o t2).2
    cases hsr : splitResponse (sendCommand s o "CLOSE").1 with
    | error e =>
      have h2 : (closeOp s o t2).2 = (sendCommand s o "CLOSE").2 := by
        rw [closeOp_eq, hsr]
      rw [h2, sendCommand_snd]
      intro hs
      exact h hs
    | ok resp =>
      by_cases hok : resp.1 = some RAW_STATUS_OK
      · by_cases hop : s.status = STATUS_OPEN
        · have h2 : (closeOp s o t2).2 = { (sendCommand s o "CLOSE").2 with
              timestamp := some t2, status := STATUS_CLOSING } := by
            rw [closeOp_eq, hsr]
            dsimp only
            rw [if_pos hok, if_pos hop]
          rw [h2]
          intro _
          simp
        · by_cases hstp : s.status = STATUS_STOPPED
          · have h2 : (closeOp s o t2).2 = { (sendCommand s o "CLOSE").2 with
                status := STATUS_CLOSING } := by
              rw [closeOp_eq, hsr]
              dsimp only
              rw [if_pos hok, if_neg hop, if_pos hstp]
            rw [h2]
            intro hs
            rcases hs with hs | hs <;> simp at hs
          · have h2 : (closeOp s o t2).2 = (sendCommand s o "CLOSE").2 := by
              rw [closeOp_eq, hsr]
              dsimp only
              rw [if_pos hok, if_neg hop, if_neg hstp]
            rw [h2, sendCommand_snd]
            intro hs
            exact h hs
      · have h2 : (closeOp s o t2).2 = (sendCommand s o "CLOSE").2 := by
          rw [closeOp_eq, hsr]
          dsimp only
          rw [if_neg hok]
        rw [h2, sendCommand_snd]
        intro hs
        exact h hs
  | statusCmd =>
    show TsInv (update s t2).2
    exact tsinv_update s t2 h
  | positionCmd =>
    show TsInv (update s t2).2
    exact tsinv_update s t2 h

theorem reach_tsinv (s : AXAState) (t : ℚ) (h : Reach AnyOp s t) : TsInv s := by
  induction h with
  | init t =>
    intro hs
    rcases hs with hs | hs <;> exact absurd hs (by decide)
  | step s t t2 op h hle hp ih =>
    exact tsinv_applyOp s t2 op ih

/-- C6, counterexample: the trace connect() (Locked), open() at clock
1, status() at clock 50 reaches a state whose presumed status is the
stable phase Open while the transition timestamp is still set to 1:
the source never clears the timestamp, so (quote) set only in moving
phases (unquote) fails. -/
theorem axa_c6_timestamp_counterexample :
    Reach AnyOp c6final 50 ∧ c6final.status = STATUS_OPEN ∧
    c6final.timestamp = some 1 := by
  refine ⟨?_, ?_, ?_⟩
  · have h0 : Reach AnyOp initState 0 := Reach.init 0
    have h1 := Reach.step initState 0 0 (.connectCmd lockedConn) h0
      le_rfl trivial
    have h2 := Reach.step _ 0 1 (.openCmd okResp) h1 (by norm_num) trivial
    have h3 := Reach.step _ 1 50 .statusCmd h2 (by norm_num) trivial
    exact h3
  · have hst : c6state.status = STATUS_UNLOCKING := by decide
    have hts : c6state.timestamp = some 1 := by decide
    have hupd := update_unlocking c6state 50 1 hst hts
    show (update c6state 50).2.status = STATUS_OPEN
    rw [hupd]
    rw [if_neg (by norm_num : ¬((50:ℚ) - 1 < 5)),
      if_pos (by norm_num : (50:ℚ) - 1 > 47)]
  · have hst : c6state.status = STATUS_UNLOCKING := by decide
    have hts : c6state.timestamp = some 1 := by decide
    have hupd := update_unlocking c6state 50 1 hst hts
    show (update c6state 50).2.timestamp = some 1
    rw [hupd]
    rw [if_neg (by norm_num : ¬((50:ℚ) - 1 < 5)),
      if_pos (by norm_num : (50:ℚ) - 1 > 47)]
    exact hts

/-- C6, amended: the transition timestamp is set whenever the presumed
status is Unlocking or Locking, in every state reachable through any
sequence of public operations; the (quote) only if (unquote) direction
of the claim fails because the timestamp is never cleared (see the
counterexample), and Opening/Closing entered from Stopped can lack a
timestamp (claim C10). -/
theorem axa_c6_timestamp_amended :
    ∀ (s : AXAState) (t : ℚ), Reach AnyOp s t →
      (s.status = STATUS_UNLOCKING ∨ s.status = STATUS_LOCKING) →
      s.timestamp ≠ none := by
  intro s t h hs
  exact reach_tsinv s t h hs

/-- C6, amended, witness: the Unlocking state after connect() and a
succeeding open() at clock 1 carries a timestamp. -/
theorem axa_c6_timestamp_amended_witness :
    c6state.status = STATUS_UNLOCKING ∧ c6state.timestamp ≠ none := by
  have hr : Reach AnyOp c6state 1 := by
    have h0 : Reach AnyOp initState 0 := Reach.init 0
    have h1 := Reach.step initState 0 0 (.connectCmd lockedConn) h0
      le_rfl trivial
    have h2 := Reach.step _ 0 1 (.openCmd okResp) h1 (by norm_num) trivial
    exact h2
  exact ⟨by decide, axa_c6_timestamp_amended c6state 1 hr (Or.inl (by decide))⟩

end AXARemote
